import Mathlib

/-!
Shallow embedding of the Nevada entity scraper (src/nevada_scraper.py).

The embedding covers the three core components:
* `solve_captcha` : the challenge-solving coordination protocol (submit, then
  poll up to 120 times), modelled over abstract intake and poll responses.
* `parse_business_information` : the HTML-to-record extraction engine, modelled
  over a `Document` carrying the label/value rows in document order (the text a
  label yields after `get_text(strip=True).replace(idColon, empty)` together with
  the text of the next sibling div, or `none` when no sibling div exists) and
  the officer table (the `grid_principalList` table, its optional tbody, and
  the cell texts of each tr).
* `scrape_nevada_entity` : the acquisition orchestrator, modelled over a
  `BrowserEnv` describing the outcome of each browser interaction phase.

Python dictionaries with known keys are modelled as structures whose fields
have type `Option (Option String)`: the outer `Option` is key presence, the
inner one distinguishes a stored string from a stored `None` (JSON null).
-/

namespace NevadaScraper

/-- Boolean substring test modelling the Python `in` operator on strings:
`strContains s pat` is true when `pat` occurs contiguously inside `s`. -/
def strContains (s pat : String) : Bool :=
  (List.range (s.length + 1)).any (fun i => pat.data.isPrefixOf (s.data.drop i))

/-- The `entity_information` dictionary of `business_data`.  A field is `none`
when its key is absent, `some none` when the key maps to `None`, and
`some (some v)` when the key maps to the string `v`. -/
structure EntityInfo where
  entity_name : Option (Option String) := none
  entity_number : Option (Option String) := none
  entity_type : Option (Option String) := none
  entity_status : Option (Option String) := none
  formation_date : Option (Option String) := none
  nv_business_id : Option (Option String) := none
  termination_date : Option (Option String) := none
  annual_report_due_date : Option (Option String) := none
  compliance_hold : Option (Option String) := none
deriving Repr, DecidableEq

/-- The `registered_agent` dictionary of `business_data`. -/
structure RegisteredAgent where
  name : Option (Option String) := none
  status : Option (Option String) := none
  cra_agent_entity_type : Option (Option String) := none
  registered_agent_type : Option (Option String) := none
  nv_business_id : Option (Option String) := none
  office_or_position : Option (Option String) := none
  jurisdiction : Option (Option String) := none
  street_address : Option (Option String) := none
  mailing_address : Option (Option String) := none
deriving Repr, DecidableEq

/-- One officer dictionary appended to `business_data` officers. -/
structure Officer where
  title : String
  name : String
  address : String
  last_updated : String
  status : String
deriving Repr, DecidableEq

/-- The `metadata` dictionary: `error` is `none` when the key is absent. -/
structure Metadata where
  source : String
  scraped_date : String
  success : Bool
  error : Option String
deriving Repr, DecidableEq

/-- The full `business_data` record returned by the parser and the scraper. -/
structure BusinessData where
  entity_information : EntityInfo
  registered_agent : RegisteredAgent
  officers : List Officer
  metadata : Metadata
deriving Repr, DecidableEq

/-- One label/value pair encountered by the nested panel/row/label traversal,
in document order.  `label` is the label text after stripping and colon
removal; `value` is the stripped text of the next sibling div of the label
parent, or `none` when that sibling does not exist (in which case the source
skips the label entirely). -/
structure LabelRow where
  label : String
  value : Option String
deriving Repr, DecidableEq

/-- Abstraction of the parsed HTML document: the flattened label/value rows in
document order, plus the officer table.  `officerTable = none` models a missing
`grid_principalList` table, `some none` a table without tbody, and
`some (some rows)` a tbody whose tr elements have the given td texts. -/
structure Document where
  rows : List LabelRow
  officerTable : Option (Option (List (List String)))
deriving Repr, DecidableEq

/-- The label-dispatch elif chain of `parse_business_information`
(source lines 117 to 156), translated branch by branch in source order.
The Python guards testing dictionary presence of the keys
entity_information and registered_agent in `business_data` are always true
(both keys are created at initialization and never deleted) and are dropped;
presence of the name key inside registered_agent is `RegisteredAgent.name`
being `some` (the key is only ever assigned a string). -/
def dispatch (e : EntityInfo) (a : RegisteredAgent) (labelText v : String) :
    EntityInfo × RegisteredAgent :=
  if strContains labelText "Entity Name" then
    ({ e with entity_name := some (some v) }, a)
  else if strContains labelText "Entity Number" then
    ({ e with entity_number := some (some v) }, a)
  else if strContains labelText "Entity Type" then
    ({ e with entity_type := some (some v) }, a)
  else if strContains labelText "Entity Status" then
    ({ e with entity_status := some (some v) }, a)
  else if strContains labelText "Formation Date" then
    ({ e with formation_date := some (some v) }, a)
  else if strContains labelText "NV Business ID" then
    -- only set if not already set (to avoid overwriting)
    if e.nv_business_id = none then
      ({ e with nv_business_id := some (some v) }, a)
    else (e, a)
  else if strContains labelText "Termination Date" then
    ({ e with termination_date := some (if v = "" then none else some v) }, a)
  else if strContains labelText "Annual Report Due Date" then
    ({ e with annual_report_due_date := some (some v) }, a)
  else if strContains labelText "Compliance Hold" then
    ({ e with compliance_hold := some (if v = "" then none else some v) }, a)
  else if strContains labelText "Name of Individual or Legal Entity" then
    (e, { a with name := some (some v) })
  else if strContains labelText "Status" && a.name.isSome then
    (e, { a with status := some (some v) })
  else if strContains labelText "CRA Agent Entity Type" then
    (e, { a with cra_agent_entity_type := some (if v = "" then none else some v) })
  else if strContains labelText "Registered Agent Type" then
    (e, { a with registered_agent_type := some (some v) })
  else if strContains labelText "NV Business ID" && a.name.isSome then
    (e, { a with nv_business_id := some (some v) })
  else if strContains labelText "Office or Position" then
    (e, { a with office_or_position := some (if v = "" then none else some v) })
  else if strContains labelText "Jurisdiction" then
    (e, { a with jurisdiction := some (if v = "" then none else some v) })
  else if strContains labelText "Street Address" then
    (e, { a with street_address := some (some v) })
  else if strContains labelText "Mailing Address" then
    (e, { a with mailing_address := some (if v = "" then none else some v) })
  else (e, a)

/-- Processing of one label: labels without a next sibling div are skipped;
otherwise the label text and value are dispatched. -/
def processRow (s : EntityInfo × RegisteredAgent) (r : LabelRow) :
    EntityInfo × RegisteredAgent :=
  match r.value with
  | none => s
  | some v => dispatch s.1 s.2 r.label v

/-- Positional mapping of the first five cells of a qualifying officer row
(source lines 168 to 174). -/
def officerOfCells (cells : List String) : Officer :=
  { title := cells.getD 0 ""
    name := cells.getD 1 ""
    address := cells.getD 2 ""
    last_updated := cells.getD 3 ""
    status := cells.getD 4 "" }

/-- The officer-table row loop (source lines 165 to 175): a row contributes an
officer exactly when it has at least 5 cells; others are skipped silently. -/
def parseOfficerRows : List (List String) → List Officer
  | [] => []
  | cells :: rest =>
    if 5 ≤ cells.length then officerOfCells cells :: parseOfficerRows rest
    else parseOfficerRows rest

/-- `parse_business_information` (source lines 75 to 177) over the document
abstraction.  `ts` is the timestamp `time.strftime` produces at parse time.
The `None` returns of the Python function arise only from exceptions of the
underlying HTML library, which are outside the embedding; on the embedded
document model extraction always completes and stamps success true. -/
def parse_business_information (ts : String) (doc : Document) : BusinessData :=
  let secs := doc.rows.foldl processRow (({} : EntityInfo), ({} : RegisteredAgent))
  let officers :=
    match doc.officerTable with
    | none => []
    | some none => []
    | some (some rows) => parseOfficerRows rows
  { entity_information := secs.1
    registered_agent := secs.2
    officers := officers
    metadata :=
      { source := "Nevada Secretary of State"
        scraped_date := ts
        success := true
        error := none } }

/-- A decoded JSON body of one poll of the result endpoint.  Absent keys are
`none`; `status` models `result_data.get(idStatus)` and `request` the payload
under the request key. -/
structure PollJson where
  status : Option Int
  request : Option String
  useragent : Option String
  respKey : Option String
deriving Repr, DecidableEq

/-- Outcome of one `requests.get` round trip of the polling loop:
`exn` models the request itself raising (network/transport failure),
`malformed` a body on which `result.json()` raises, and `json` a decoded
body. -/
inductive PollResponse where
  | exn (msg : String)
  | malformed
  | json (j : PollJson)
deriving Repr, DecidableEq

/-- Outcome of the intake `requests.post` round trip of `solve_captcha`. -/
inductive IntakeResponse where
  | exn (msg : String)
  | malformed
  | json (status : Option Int) (request : Option String)
deriving Repr, DecidableEq

/-- Classification of the exceptions `solve_captcha` can raise: rejection of
the submission by the service, exhaustion of the polling budget, a raising
HTTP round trip, a non-JSON body, and a missing request key. -/
inductive SolveError where
  | submission
  | timeout
  | transport
  | jsonDecode
  | keyError
deriving Repr, DecidableEq

/-- The dictionary returned by `solve_captcha` on success
(source lines 60 to 64). -/
structure SolveResult where
  token : String
  useragent : Option String
  respKey : Option String
deriving Repr, DecidableEq

/-- Whether a poll response is well-formed JSON that does not report the ready
status, which the loop treats as pending. -/
def pendingPoll : PollResponse → Bool
  | PollResponse.json j => decide (j.status ≠ some 1)
  | _ => false

/-- The polling loop of `solve_captcha` (source lines 46 to 69): `attempts` is
the current attempt counter and `fuel` the remaining iterations of the
`while attempts < max_attempts` loop; the poll performed at counter value `n`
receives `polls n`.  A raising round trip or a non-JSON body propagates as an
exception; a decoded body with ready status returns the solution (raising a
key error when the request key is absent); anything else increments the
counter and continues; running out of fuel raises the timeout exception. -/
def pollLoop (polls : Nat → PollResponse) : Nat → Nat → Except SolveError SolveResult
  | _, 0 => Except.error SolveError.timeout
  | attempts, fuel + 1 =>
    match polls attempts with
    | PollResponse.exn _ => Except.error SolveError.transport
    | PollResponse.malformed => Except.error SolveError.jsonDecode
    | PollResponse.json j =>
      if j.status = some 1 then
        match j.request with
        | some tok =>
          Except.ok { token := tok, useragent := j.useragent, respKey := j.respKey }
        | none => Except.error SolveError.keyError
      else
        pollLoop polls (attempts + 1) fuel

/-- `solve_captcha` (source lines 20 to 73) over abstract service responses:
submit the captcha; a status flag other than 1 in the decoded intake body is a
submission failure; otherwise read the job identifier and poll with counter 0
and budget `max_attempts = 120`.  The trailing except block only logs and
re-raises, so it is the identity on the error. -/
def solve_captcha (intake : IntakeResponse) (polls : Nat → PollResponse) :
    Except SolveError SolveResult :=
  match intake with
  | IntakeResponse.exn _ => Except.error SolveError.transport
  | IntakeResponse.malformed => Except.error SolveError.jsonDecode
  | IntakeResponse.json st req =>
    if st = some 1 then
      match req with
      | some _ => pollLoop polls 0 120
      | none => Except.error SolveError.keyError
    else Except.error SolveError.submission

/-- Outcomes of the browser interaction phases of one acquisition attempt.
`searchInputPresent` is whether the probe for the search input on the main
page succeeds; `iframePhase` is the challenge-iframe phase (error when the
iframe wait, frame switch or attribute read raises; otherwise the sitekey
attribute value, possibly absent); `challengePhase` is the combined outcome of
solving the captcha and injecting its token; `searchPhase` is the outcome of
the search clicks, the result wait and page-source capture, yielding the
rendered document on success. -/
structure BrowserEnv where
  searchInputPresent : Bool
  iframePhase : Except String (Option String)
  challengePhase : Except String Unit
  searchPhase : Except String Document
deriving Repr

/-- The challenge-handling phase of `scrape_nevada_entity`
(source lines 196 to 247).  Every failure is caught by one of the nested
except blocks, which only print and fall through, so the phase produces no
data and never raises: when the search input is present the phase is skipped;
an iframe error is caught at line 245; a missing sitekey only logs; a captcha
or injection error is caught at line 240. -/
def challengeStep (env : BrowserEnv) : Unit :=
  if env.searchInputPresent then ()
  else
    match env.iframePhase with
    | Except.error _ => ()
    | Except.ok none => ()
    | Except.ok (some _) =>
      match env.challengePhase with
      | Except.error _ => ()
      | Except.ok _ => ()

/-- The failure record assembled by the top-level except block of
`scrape_nevada_entity` (source lines 270 to 282). -/
def failureRecord (ts msg : String) : BusinessData :=
  { entity_information := {}
    registered_agent := {}
    officers := []
    metadata :=
      { source := "Nevada Secretary of State"
        scraped_date := ts
        success := false
        error := some msg } }

/-- `scrape_nevada_entity` (source lines 186 to 282): run the challenge phase
(whose failures are all absorbed), then perform the search; an error raised
from the search phase reaches the top-level except block and yields the
failure record, while a captured page is parsed into the final record. -/
def scrape_nevada_entity (ts : String) (env : BrowserEnv) : BusinessData :=
  let _ := challengeStep env
  match env.searchPhase with
  | Except.ok doc => parse_business_information ts doc
  | Except.error e => failureRecord ts e

/-- `API_KEY` (source line 15): `os.getenv` with a hardcoded fallback, where
`envValue` is the value of the SOLVECAPTCHA_API_KEY environment variable or
`none` when it is unset.  The fallback applies only when the variable is
unset, not when it is set to the empty string. -/
def API_KEY (envValue : Option String) : String :=
  envValue.getD "e8241ace650146ad502519d5ef2bf819"

/-- The credential check of `main` (source lines 295 to 297): the run exits
with a nonzero status before any attempt exactly when `API_KEY` is falsy,
i.e. the empty string. -/
def credentialCheckAborts (envValue : Option String) : Bool :=
  API_KEY envValue = ""

/-- Erase the only time-dependent field of a record, for determinism
statements. -/
def stripTimestamp (b : BusinessData) : BusinessData :=
  { b with metadata := { b.metadata with scraped_date := "" } }

/-- A document with no label rows and no officer table. -/
def emptyDoc : Document := { rows := [], officerTable := none }

/-- An attempt in which the main-page search input is present and the search
phase captures the empty document. -/
def envEmptySuccess : BrowserEnv :=
  { searchInputPresent := true
    iframePhase := Except.ok none
    challengePhase := Except.ok ()
    searchPhase := Except.ok emptyDoc }

/-- An attempt whose challenge step fails after a sitekey was found, but whose
search phase succeeds. -/
def envChallengeFailed : BrowserEnv :=
  { searchInputPresent := false
    iframePhase := Except.ok (some "SITEKEY")
    challengePhase := Except.error "captcha solving failed"
    searchPhase := Except.ok emptyDoc }

/-- An attempt with no challenge at all and the same successful search
phase. -/
def envChallengeOk : BrowserEnv :=
  { searchInputPresent := true
    iframePhase := Except.ok none
    challengePhase := Except.ok ()
    searchPhase := Except.ok emptyDoc }

/-- A well-formed poll body that does not report the ready status. -/
def pendingJson : PollResponse :=
  PollResponse.json { status := some 0, request := none, useragent := none, respKey := none }

/-- Polls that are pending three times and ready from the fourth on. -/
def readyPolls : Nat → PollResponse := fun i =>
  if i < 3 then pendingJson
  else PollResponse.json
    { status := some 1, request := some "TOKEN123", useragent := none, respKey := none }

/-- A document whose only row is a bare Status label with no preceding
registered-agent name. -/
def statusOnlyDoc : Document :=
  { rows := [ { label := "Status", value := some "Active" } ], officerTable := none }

/-- A document that records the registered-agent name and then an ambiguous
NV Business ID label. -/
def nvidAfterAgentDoc : Document :=
  { rows := [ { label := "Name of Individual or Legal Entity", value := some "AGENT X" },
              { label := "NV Business ID", value := some "NV123" } ]
    officerTable := none }

/-! ### Helper lemmas about the polling loop -/

theorem pollLoop_step_pending (polls : Nat → PollResponse) (a f : Nat)
    (h : pendingPoll (polls a) = true) :
    pollLoop polls a (f + 1) = pollLoop polls (a + 1) f := by
  cases hp : polls a with
  | exn m => rw [hp] at h; exact Bool.noConfusion h
  | malformed => rw [hp] at h; exact Bool.noConfusion h
  | json j =>
    rw [hp] at h
    have hne : j.status ≠ some 1 := of_decide_eq_true h
    simp [pollLoop, hp, hne]

theorem pollLoop_timeout (polls : Nat → PollResponse) (f a : Nat)
    (h : ∀ i, i < f → pendingPoll (polls (a + i)) = true) :
    pollLoop polls a f = Except.error SolveError.timeout := by
  induction f generalizing a with
  | zero => rfl
  | succ f ih =>
    have h0 : pendingPoll (polls a) = true := by
      have h1 := h 0 (Nat.succ_pos f)
      simpa using h1
    rw [pollLoop_step_pending polls a f h0]
    apply ih
    intro i hi
    have h2 := h (i + 1) (by omega)
    have heq : a + (i + 1) = a + 1 + i := by omega
    rwa [heq] at h2

theorem pollLoop_ready (polls : Nat → PollResponse) (j : PollJson) (tok : String)
    (N a f : Nat) (hNf : N < f)
    (hp : ∀ i, i < N → pendingPoll (polls (a + i)) = true)
    (hr : polls (a + N) = PollResponse.json j)
    (hs : j.status = some 1) (hq : j.request = some tok) :
    pollLoop polls a f =
      Except.ok { token := tok, useragent := j.useragent, respKey := j.respKey } := by
  induction N generalizing a f with
  | zero =>
    cases f with
    | zero => omega
    | succ f =>
      have hr2 : polls a = PollResponse.json j := by simpa using hr
      simp [pollLoop, hr2, hs, hq]
  | succ N ih =>
    cases f with
    | zero => omega
    | succ f =>
      have h0 : pendingPoll (polls a) = true := by
        have h1 := hp 0 (Nat.succ_pos N)
        simpa using h1
      rw [pollLoop_step_pending polls a f h0]
      have hr2 : polls (a + 1 + N) = PollResponse.json j := by
        have heq : a + (N + 1) = a + 1 + N := by omega
        rwa [heq] at hr
      refine ih (a + 1) f (by omega) ?_ hr2
      intro i hi
      have h2 := hp (i + 1) (by omega)
      have heq : a + (i + 1) = a + 1 + i := by omega
      rwa [heq] at h2

/-- Exhaustive case analysis of one dispatch step: every label either updates
exactly one of the eighteen reachable fields with the indicated stored value,
or leaves both mappings unchanged.  In particular no step ever stores into
`RegisteredAgent.nv_business_id`: its rule is shadowed by the entity-side
NV Business ID rule, whose substring condition it repeats. -/
theorem dispatch_outcomes (e : EntityInfo) (a : RegisteredAgent) (lab v : String) :
    dispatch e a lab v = ({ e with entity_name := some (some v) }, a) ∨
    dispatch e a lab v = ({ e with entity_number := some (some v) }, a) ∨
    dispatch e a lab v = ({ e with entity_type := some (some v) }, a) ∨
    dispatch e a lab v = ({ e with entity_status := some (some v) }, a) ∨
    dispatch e a lab v = ({ e with formation_date := some (some v) }, a) ∨
    dispatch e a lab v = ({ e with nv_business_id := some (some v) }, a) ∨
    dispatch e a lab v =
      ({ e with termination_date := some (if v = "" then none else some v) }, a) ∨
    dispatch e a lab v = ({ e with annual_report_due_date := some (some v) }, a) ∨
    dispatch e a lab v =
      ({ e with compliance_hold := some (if v = "" then none else some v) }, a) ∨
    dispatch e a lab v = (e, { a with name := some (some v) }) ∨
    dispatch e a lab v = (e, { a with status := some (some v) }) ∨
    dispatch e a lab v =
      (e, { a with cra_agent_entity_type := some (if v = "" then none else some v) }) ∨
    dispatch e a lab v = (e, { a with registered_agent_type := some (some v) }) ∨
    dispatch e a lab v =
      (e, { a with office_or_position := some (if v = "" then none else some v) }) ∨
    dispatch e a lab v =
      (e, { a with jurisdiction := some (if v = "" then none else some v) }) ∨
    dispatch e a lab v = (e, { a with street_address := some (some v) }) ∨
    dispatch e a lab v =
      (e, { a with mailing_address := some (if v = "" then none else some v) }) ∨
    dispatch e a lab v = (e, a) := by
  unfold dispatch
  by_cases h1 : strContains lab "Entity Name" = true
  · rw [if_pos h1]; simp
  rw [if_neg h1]
  by_cases h2 : strContains lab "Entity Number" = true
  · rw [if_pos h2]; simp
  rw [if_neg h2]
  by_cases h3 : strContains lab "Entity Type" = true
  · rw [if_pos h3]; simp
  rw [if_neg h3]
  by_cases h4 : strContains lab "Entity Status" = true
  · rw [if_pos h4]; simp
  rw [if_neg h4]
  by_cases h5 : strContains lab "Formation Date" = true
  · rw [if_pos h5]; simp
  rw [if_neg h5]
  by_cases h6 : strContains lab "NV Business ID" = true
  · rw [if_pos h6]
    by_cases h6b : e.nv_business_id = none
    · rw [if_pos h6b]; simp
    · rw [if_neg h6b]; simp
  rw [if_neg h6]
  by_cases h7 : strContains lab "Termination Date" = true
  · rw [if_pos h7]; simp
  rw [if_neg h7]
  by_cases h8 : strContains lab "Annual Report Due Date" = true
  · rw [if_pos h8]; simp
  rw [if_neg h8]
  by_cases h9 : strContains lab "Compliance Hold" = true
  · rw [if_pos h9]; simp
  rw [if_neg h9]
  by_cases h10 : strContains lab "Name of Individual or Legal Entity" = true
  · rw [if_pos h10]; simp
  rw [if_neg h10]
  by_cases h11 : (strContains lab "Status" && a.name.isSome) = true
  · rw [if_pos h11]; simp
  rw [if_neg h11]
  by_cases h12 : strContains lab "CRA Agent Entity Type" = true
  · rw [if_pos h12]; simp
  rw [if_neg h12]
  by_cases h13 : strContains lab "Registered Agent Type" = true
  · rw [if_pos h13]; simp
  rw [if_neg h13]
  by_cases h14 : (strContains lab "NV Business ID" && a.name.isSome) = true
  · simp [h6] at h14
  rw [if_neg h14]
  by_cases h15 : strContains lab "Office or Position" = true
  · rw [if_pos h15]; simp
  rw [if_neg h15]
  by_cases h16 : strContains lab "Jurisdiction" = true
  · rw [if_pos h16]; simp
  rw [if_neg h16]
  by_cases h17 : strContains lab "Street Address" = true
  · rw [if_pos h17]; simp
  rw [if_neg h17]
  by_cases h18 : strContains lab "Mailing Address" = true
  · rw [if_pos h18]; simp
  rw [if_neg h18]
  simp

/-! ### Claim theorems -/

/-- C1 counterexample: a single attempt whose search phase captures a
parseable document with no known labels produces a final record with empty
entity_information and metadata.success true, so the claimed dichotomy fails
as stated. -/
theorem empty_entity_success_cex :
    (scrape_nevada_entity "2024-01-01 00:00:00" envEmptySuccess).entity_information =
      ({} : EntityInfo) ∧
    (scrape_nevada_entity "2024-01-01 00:00:00" envEmptySuccess).metadata.success = true :=
  ⟨rfl, rfl⟩

/-- C1 amended: for every final record produced by a single acquisition
attempt, either metadata.success is true and metadata.error is absent, with
entity_information populated or empty, or entity_information is empty with
metadata.success false and metadata.error set. -/
theorem final_record_dichotomy (ts : String) (env : BrowserEnv) :
    ((scrape_nevada_entity ts env).metadata.success = true ∧
     (scrape_nevada_entity ts env).metadata.error = none) ∨
    ((scrape_nevada_entity ts env).entity_information = ({} : EntityInfo) ∧
     (scrape_nevada_entity ts env).metadata.success = false ∧
     ((scrape_nevada_entity ts env).metadata.error).isSome = true) := by
  unfold scrape_nevada_entity
  cases h : env.searchPhase with
  | ok doc => left; exact ⟨rfl, rfl⟩
  | error e => right; exact ⟨rfl, rfl, rfl⟩

/-- C2 counterexample: a non-JSON body on the very first poll aborts the
polling phase with a decode error rather than being treated as pending, and
that error is not the timeout error. -/
theorem malformed_poll_aborts_cex :
    pollLoop (fun _ => PollResponse.malformed) 0 120 = Except.error SolveError.jsonDecode ∧
    SolveError.jsonDecode ≠ SolveError.timeout :=
  ⟨rfl, by decide⟩

/-- C2 amended: during the polling phase, a well-formed poll response without
the ready status is treated as pending and the loop continues to the next
attempt; exhausting all attempts raises the timeout error; but a non-JSON
body, or a raising poll round trip, aborts the phase immediately with the
corresponding error instead of being treated as pending. -/
theorem polling_phase_behavior (polls : Nat → PollResponse) (a f : Nat) :
    (pendingPoll (polls a) = true →
      pollLoop polls a (f + 1) = pollLoop polls (a + 1) f) ∧
    ((∀ i, i < f → pendingPoll (polls (a + i)) = true) →
      pollLoop polls a f = Except.error SolveError.timeout) ∧
    (polls a = PollResponse.malformed →
      pollLoop polls a (f + 1) = Except.error SolveError.jsonDecode) ∧
    (∀ m, polls a = PollResponse.exn m →
      pollLoop polls a (f + 1) = Except.error SolveError.transport) := by
  refine ⟨fun h => pollLoop_step_pending polls a f h,
          fun h => pollLoop_timeout polls f a h,
          fun h => ?_,
          fun m h => ?_⟩
  · simp [pollLoop, h]
  · simp [pollLoop, h]

/-- C2 witness: concrete instances of the pending step, the timeout by
exhaustion, and the immediate aborts. -/
theorem polling_phase_behavior_witness :
    pollLoop (fun _ => pendingJson) 5 (7 + 1) = pollLoop (fun _ => pendingJson) 6 7 ∧
    pollLoop (fun _ => pendingJson) 0 10 = Except.error SolveError.timeout ∧
    pollLoop (fun _ => PollResponse.malformed) 3 (9 + 1) = Except.error SolveError.jsonDecode ∧
    pollLoop (fun _ => PollResponse.exn "boom") 3 (9 + 1) = Except.error SolveError.transport :=
  ⟨(polling_phase_behavior (fun _ => pendingJson) 5 7).1 (by decide),
   (polling_phase_behavior (fun _ => pendingJson) 0 10).2.1 (by decide),
   (polling_phase_behavior (fun _ => PollResponse.malformed) 3 9).2.2.1 rfl,
   (polling_phase_behavior (fun _ => PollResponse.exn "boom") 3 9).2.2.2 "boom" rfl⟩

/-- C3 counterexample: on a document whose only row is a bare Status label
with no preceding registered-agent name, the value is assigned to neither
mapping; in particular it is not assigned to entity_information as the claim
states. -/
theorem status_without_agent_dropped_cex :
    (parse_business_information "t" statusOnlyDoc).entity_information = ({} : EntityInfo) ∧
    (parse_business_information "t" statusOnlyDoc).registered_agent = ({} : RegisteredAgent) :=
  ⟨rfl, rfl⟩

/-- C3 amended: when registered_agent.name has been recorded before an
ambiguous Status label row is processed, its value is assigned to
registered_agent.status and not to entity_information; when no agent name has
been recorded, the value is discarded entirely, assigned to neither mapping. -/
theorem status_dispatch_contextual (e : EntityInfo) (a : RegisteredAgent) (v : String) :
    (a.name.isSome = true →
      dispatch e a "Status" v = (e, { a with status := some (some v) })) ∧
    (a.name = none → dispatch e a "Status" v = (e, a)) := by
  obtain ⟨nm, st, cat, rat, nvb, ofp, jur, sad, mad⟩ := a
  constructor
  · intro h
    cases nm with
    | none => exact Bool.noConfusion h
    | some s => rfl
  · intro h
    cases nm with
    | none => rfl
    | some s => exact Option.noConfusion h

/-- C3 witness: concrete instances of both dispatch outcomes for a Status
label. -/
theorem status_dispatch_contextual_witness :
    dispatch {} { name := some (some "AGENT X") } "Status" "Active" =
      ({}, { name := some (some "AGENT X"), status := some (some "Active") }) ∧
    dispatch {} {} "Status" "Active" = ({}, {}) :=
  ⟨(status_dispatch_contextual {} { name := some (some "AGENT X") } "Active").1 rfl,
   (status_dispatch_contextual {} {} "Active").2 rfl⟩

/-- C4 counterexample: on a document where the registered-agent name is
recorded before an ambiguous NV Business ID label, the value is attributed to
entity_information.nv_business_id, and registered_agent.nv_business_id stays
absent, contrary to the claim. -/
theorem nvid_after_agent_cex :
    (parse_business_information "t" nvidAfterAgentDoc).registered_agent.name =
      some (some "AGENT X") ∧
    (parse_business_information "t" nvidAfterAgentDoc).registered_agent.nv_business_id = none ∧
    (parse_business_information "t" nvidAfterAgentDoc).entity_information.nv_business_id =
      some (some "NV123") :=
  ⟨rfl, rfl, rfl⟩

/-- C4 amended: the dispatch never assigns registered_agent.nv_business_id at
all (the agent-side rule is dead code, shadowed by the entity-side rule), and
an NV Business ID label value is attributed to
entity_information.nv_business_id whenever that field is still unset,
regardless of the registered-agent context, and dropped otherwise. -/
theorem nvid_dispatch_characterization (e : EntityInfo) (a : RegisteredAgent)
    (lab v : String) :
    (dispatch e a lab v).2.nv_business_id = a.nv_business_id ∧
    (e.nv_business_id = none →
      dispatch e a "NV Business ID" v = ({ e with nv_business_id := some (some v) }, a)) ∧
    (e.nv_business_id ≠ none → dispatch e a "NV Business ID" v = (e, a)) := by
  refine ⟨?_, ?_, ?_⟩
  · rcases dispatch_outcomes e a lab v with
      h | h | h | h | h | h | h | h | h | h | h | h | h | h | h | h | h | h <;>
      rw [h]
  · intro h
    obtain ⟨en, enum, et, es, fd, nvb, td, ar, ch⟩ := e
    cases nvb with
    | none => rfl
    | some x => exact Option.noConfusion h
  · intro h
    obtain ⟨en, enum, et, es, fd, nvb, td, ar, ch⟩ := e
    cases nvb with
    | none => exact absurd rfl h
    | some x => rfl

/-- C4 witness: concrete instances of the dead agent-side rule and of both
entity-side outcomes. -/
theorem nvid_dispatch_witness :
    (dispatch {} {} "Unrelated Label" "V1").2.nv_business_id = none ∧
    dispatch {} {} "NV Business ID" "NV1" =
      ({ nv_business_id := some (some "NV1") }, {}) ∧
    dispatch { nv_business_id := some (some "OLD") } {} "NV Business ID" "NV1" =
      ({ nv_business_id := some (some "OLD") }, {}) :=
  ⟨(nvid_dispatch_characterization {} {} "Unrelated Label" "V1").1,
   (nvid_dispatch_characterization {} {} "NV Business ID" "NV1").2.1 rfl,
   (nvid_dispatch_characterization { nv_business_id := some (some "OLD") } {}
      "NV Business ID" "NV1").2.2 (by decide)⟩

/-- C5: solve_captcha returns the token as soon as the poll at counter N,
N below 120, reports the ready status after only pending polls; it raises the
timeout error when all 120 polls are pending; and a non-success intake status
flag raises the submission error with a result independent of the poll
responses, i.e. before any poll is consumed. -/
theorem solve_captcha_protocol :
    (∀ (polls : Nat → PollResponse) (rid : String) (j : PollJson) (tok : String) (N : Nat),
      N < 120 →
      (∀ i, i < N → pendingPoll (polls i) = true) →
      polls N = PollResponse.json j → j.status = some 1 → j.request = some tok →
      solve_captcha (IntakeResponse.json (some 1) (some rid)) polls =
        Except.ok { token := tok, useragent := j.useragent, respKey := j.respKey }) ∧
    (∀ (polls : Nat → PollResponse) (rid : String),
      (∀ i, i < 120 → pendingPoll (polls i) = true) →
      solve_captcha (IntakeResponse.json (some 1) (some rid)) polls =
        Except.error SolveError.timeout) ∧
    (∀ (st : Option Int) (req : Option String) (polls polls2 : Nat → PollResponse),
      st ≠ some 1 →
      solve_captcha (IntakeResponse.json st req) polls = Except.error SolveError.submission ∧
      solve_captcha (IntakeResponse.json st req) polls =
        solve_captcha (IntakeResponse.json st req) polls2) := by
  refine ⟨?_, ?_, ?_⟩
  · intro polls rid j tok N hN hp hr hs hq
    have hready : pollLoop polls 0 120 =
        Except.ok { token := tok, useragent := j.useragent, respKey := j.respKey } := by
      refine pollLoop_ready polls j tok N 0 120 hN ?_ ?_ hs hq
      · intro i hi
        simpa using hp i hi
      · simpa using hr
    exact hready
  · intro polls rid hp
    have htimeout : pollLoop polls 0 120 = Except.error SolveError.timeout := by
      refine pollLoop_timeout polls 120 0 ?_
      intro i hi
      simpa using hp i hi
    exact htimeout
  · intro st req polls polls2 hst
    constructor <;> simp [solve_captcha, hst]

/-- C5 witness: a concrete ready run, a concrete timeout run, and a concrete
rejected submission. -/
theorem solve_captcha_protocol_witness :
    solve_captcha (IntakeResponse.json (some 1) (some "RID")) readyPolls =
      Except.ok { token := "TOKEN123", useragent := none, respKey := none } ∧
    solve_captcha (IntakeResponse.json (some 1) (some "RID")) (fun _ => pendingJson) =
      Except.error SolveError.timeout ∧
    solve_captcha (IntakeResponse.json (some 0) (some "RID")) readyPolls =
      Except.error SolveError.submission :=
  ⟨solve_captcha_protocol.1 readyPolls "RID"
      { status := some 1, request := some "TOKEN123", useragent := none, respKey := none }
      "TOKEN123" 3 (by decide) (by decide) (by decide) rfl rfl,
   solve_captcha_protocol.2.1 (fun _ => pendingJson) "RID" (by decide),
   (solve_captcha_protocol.2.2 (some 0) (some "RID") readyPolls readyPolls (by decide)).1⟩

/-- C6: a row of the officer table contributes an officer exactly when it has
at least 5 cells, the first five cells map positionally to title, name,
address, last_updated and status, and qualifying rows keep their source
order. -/
theorem officer_rows_filtered_positional (rows : List (List String)) :
    parseOfficerRows rows =
      (rows.filter (fun cells => 5 ≤ cells.length)).map officerOfCells := by
  induction rows with
  | nil => rfl
  | cons c rest ih =>
    by_cases h : 5 ≤ c.length
    · simp [parseOfficerRows, List.filter_cons, h, ih]
    · simp [parseOfficerRows, List.filter_cons, h, ih]

/-- C7: whenever a dispatch step changes a field, the six optional fields
(termination date, compliance hold, CRA agent entity type, office or
position, jurisdiction, mailing address) receive null for an empty value and
the literal string otherwise, while every other field receives the literal,
possibly empty, string unchanged. -/
theorem empty_value_null_exactly_optional (e : EntityInfo) (a : RegisteredAgent)
    (lab v : String) :
    ((dispatch e a lab v).1.termination_date = e.termination_date ∨
      (dispatch e a lab v).1.termination_date = some (if v = "" then none else some v)) ∧
    ((dispatch e a lab v).1.compliance_hold = e.compliance_hold ∨
      (dispatch e a lab v).1.compliance_hold = some (if v = "" then none else some v)) ∧
    ((dispatch e a lab v).2.cra_agent_entity_type = a.cra_agent_entity_type ∨
      (dispatch e a lab v).2.cra_agent_entity_type = some (if v = "" then none else some v)) ∧
    ((dispatch e a lab v).2.office_or_position = a.office_or_position ∨
      (dispatch e a lab v).2.office_or_position = some (if v = "" then none else some v)) ∧
    ((dispatch e a lab v).2.jurisdiction = a.jurisdiction ∨
      (dispatch e a lab v).2.jurisdiction = some (if v = "" then none else some v)) ∧
    ((dispatch e a lab v).2.mailing_address = a.mailing_address ∨
      (dispatch e a lab v).2.mailing_address = some (if v = "" then none else some v)) ∧
    ((dispatch e a lab v).1.entity_name = e.entity_name ∨
      (dispatch e a lab v).1.entity_name = some (some v)) ∧
    ((dispatch e a lab v).1.entity_number = e.entity_number ∨
      (dispatch e a lab v).1.entity_number = some (some v)) ∧
    ((dispatch e a lab v).1.entity_type = e.entity_type ∨
      (dispatch e a lab v).1.entity_type = some (some v)) ∧
    ((dispatch e a lab v).1.entity_status = e.entity_status ∨
      (dispatch e a lab v).1.entity_status = some (some v)) ∧
    ((dispatch e a lab v).1.formation_date = e.formation_date ∨
      (dispatch e a lab v).1.formation_date = some (some v)) ∧
    ((dispatch e a lab v).1.nv_business_id = e.nv_business_id ∨
      (dispatch e a lab v).1.nv_business_id = some (some v)) ∧
    ((dispatch e a lab v).1.annual_report_due_date = e.annual_report_due_date ∨
      (dispatch e a lab v).1.annual_report_due_date = some (some v)) ∧
    ((dispatch e a lab v).2.name = a.name ∨
      (dispatch e a lab v).2.name = some (some v)) ∧
    ((dispatch e a lab v).2.status = a.status ∨
      (dispatch e a lab v).2.status = some (some v)) ∧
    ((dispatch e a lab v).2.registered_agent_type = a.registered_agent_type ∨
      (dispatch e a lab v).2.registered_agent_type = some (some v)) ∧
    ((dispatch e a lab v).2.nv_business_id = a.nv_business_id ∨
      (dispatch e a lab v).2.nv_business_id = some (some v)) ∧
    ((dispatch e a lab v).2.street_address = a.street_address ∨
      (dispatch e a lab v).2.street_address = some (some v)) := by
  rcases dispatch_outcomes e a lab v with
    h | h | h | h | h | h | h | h | h | h | h | h | h | h | h | h | h | h <;>
    rw [h] <;> simp

/-- C8: the final record of an attempt is a function of the search phase
alone, so failures while locating the iframe or sitekey or while solving or
injecting the challenge never change the outcome, and a successful search
phase yields a successful record even when the challenge step failed. -/
theorem challenge_failure_nonfatal (ts : String) (env env2 : BrowserEnv)
    (h : env.searchPhase = env2.searchPhase) :
    scrape_nevada_entity ts env = scrape_nevada_entity ts env2 ∧
    (∀ doc, env.searchPhase = Except.ok doc →
      scrape_nevada_entity ts env = parse_business_information ts doc ∧
      (scrape_nevada_entity ts env).metadata.success = true ∧
      (scrape_nevada_entity ts env).metadata.error = none) := by
  constructor
  · unfold scrape_nevada_entity
    rw [h]
  · intro doc hdoc
    unfold scrape_nevada_entity
    rw [hdoc]
    exact ⟨rfl, rfl, rfl⟩

/-- C8 witness: an attempt whose challenge step fails produces the same
successful record as one without any challenge. -/
theorem challenge_failure_nonfatal_witness :
    scrape_nevada_entity "ts" envChallengeFailed = scrape_nevada_entity "ts" envChallengeOk ∧
    (scrape_nevada_entity "ts" envChallengeFailed).metadata.success = true :=
  ⟨(challenge_failure_nonfatal "ts" envChallengeFailed envChallengeOk rfl).1,
   ((challenge_failure_nonfatal "ts" envChallengeFailed envChallengeOk rfl).2
      emptyDoc rfl).2.1⟩

/-- C9: the extractor is a deterministic function of the document apart from
the scraped timestamp: two runs with any two timestamps agree once that field
is erased. -/
theorem parse_deterministic_up_to_timestamp (doc : Document) (t1 t2 : String) :
    stripTimestamp (parse_business_information t1 doc) =
    stripTimestamp (parse_business_information t2 doc) := rfl

/-- C10 counterexample: with the environment variable set to the empty
string, API_KEY is the empty string and the credential check in main does
trigger, so the abort path is reachable. -/
theorem empty_env_credential_abort_cex :
    API_KEY (some "") = "" ∧ credentialCheckAborts (some "") = true :=
  ⟨rfl, rfl⟩

/-- C10 amended: the credential check aborts exactly when the environment
variable is set to the empty string; when it is unset the hardcoded fallback
applies and when it is set to any nonempty value that value is used, so in
both of those cases every run proceeds to an acquisition attempt. -/
theorem api_key_abort_characterization (envValue : Option String) :
    (envValue = some "" → credentialCheckAborts envValue = true) ∧
    (envValue ≠ some "" → credentialCheckAborts envValue = false) := by
  constructor
  · intro h
    subst h
    rfl
  · intro h
    cases envValue with
    | none => rfl
    | some s =>
      have hs : s ≠ "" := fun hs2 => h (by rw [hs2])
      exact decide_eq_false hs

/-- C10 witness: the check passes when the variable is unset and when it is
set to a nonempty value. -/
theorem api_key_abort_witness :
    credentialCheckAborts none = false ∧ credentialCheckAborts (some "key") = false :=
  ⟨(api_key_abort_characterization none).2 (by decide),
   (api_key_abort_characterization (some "key")).2 (by decide)⟩

end NevadaScraper
